import Mathlib

/-!
Shallow embedding of the routing / configuration / conversation-storage core of
the agentic-callcenter backend (directory consolidated-backend), together with
theorems settling the specification claims about it.

Python dictionaries keyed by strings are modelled as association lists
(List (String × α)) with dict-assignment (upsert) and lookup helpers; in-memory
caches holding the values of such dicts are modelled as insertion-ordered lists
of records.  Wall-clock instants are Nat seconds; ISO timestamp strings that
only flow into stored documents are threaded as String parameters.  External
I/O (Cosmos containers, the Foundry agent service, the Service Bus) is
modelled by explicit state records and oracle parameters.
-/

set_option autoImplicit false

namespace CallCenter

/-- Python dict assignment d[k] = v on a string-keyed dict viewed as an
association list: replaces the value in place if the key is present,
otherwise appends the new key at the end (dict insertion order). -/
def dictSet {α : Type} (k : String) (v : α) : List (String × α) → List (String × α)
  | [] => [(k, v)]
  | (k', v') :: rest => if k' = k then (k, v) :: rest else (k', v') :: dictSet k v rest

/-- Python dict lookup d.get(k): first (and, for genuine dicts, only)
binding of the key. -/
def dictGet {α : Type} (k : String) : List (String × α) → Option α
  | [] => none
  | (k', v') :: rest => if k' = k then some v' else dictGet k rest

/-! ## Configuration registry (config_manager.py)

Agent / Channel / Mapping documents carry further fields (names, timestamps,
descriptions); only the fields that the routing and mutation logic inspects
are modelled, the rest ride along as opaque strings. -/

/-- An agent configuration document (config_manager.py, AgentConfig). -/
structure Agent where
  agent_id : String
  agent_name : String
  foundry_endpoint : String
  deriving Repr, DecidableEq

/-- A channel configuration document (config_manager.py, ChannelConfig). -/
structure Channel where
  channel_id : String
  channel_name : String
  channel_type : String
  phone_number : String
  is_active : Bool
  deriving Repr, DecidableEq

/-- An agent-channel mapping document (config_manager.py, AgentChannelMapping). -/
structure Mapping where
  mapping_id : String
  agent_id : String
  channel_id : String
  is_primary : Bool
  is_active : Bool
  deriving Repr, DecidableEq

/-- The three in-memory caches of ConfigurationManager, as value lists in dict
insertion order (the keys are the respective id fields). -/
structure ConfigState where
  agents : List Agent
  channels : List Channel
  mappings : List Mapping
  deriving Repr, DecidableEq

/-- ConfigurationManager.get_agent (cache lookup body, line 283). -/
def get_agent (s : ConfigState) (agent_id : String) : Option Agent :=
  s.agents.find? (fun a => a.agent_id = agent_id)

/-- ConfigurationManager.get_channel (cache lookup body, line 373). -/
def get_channel (s : ConfigState) (channel_id : String) : Option Channel :=
  s.channels.find? (fun c => c.channel_id = channel_id)

/-- ConfigurationManager.get_channel_by_phone (loop over the channels cache,
lines 378-381): first channel whose phone_number matches. -/
def get_channel_by_phone (s : ConfigState) (phone_number : String) : Option Channel :=
  s.channels.find? (fun c => c.phone_number = phone_number)

/-- ConfigurationManager.list_channels (lines 383-394) with both optional
filters; a None filter leaves the list unchanged. -/
def list_channels (s : ConfigState) (channel_type : Option String)
    (is_active : Option Bool) : List Channel :=
  let cs := s.channels
  let cs := match channel_type with
    | none => cs
    | some t => cs.filter (fun c => c.channel_type = t.toLower)
  match is_active with
  | none => cs
  | some b => cs.filter (fun c => c.is_active = b)

/-- ConfigurationManager.get_mappings_by_channel (line 445). -/
def get_mappings_by_channel (s : ConfigState) (channel_id : String) : List Mapping :=
  s.mappings.filter (fun m => m.channel_id = channel_id)

/-- ConfigurationManager.get_agent_for_phone (lines 447-468): channel by phone,
then its mappings, then the first active mapping flagged primary (else the
first active mapping), then that mapping's agent. -/
def get_agent_for_phone (s : ConfigState) (phone_number : String) : Option Agent :=
  match get_channel_by_phone s phone_number with
  | none => none
  | some channel =>
    let mappings := get_mappings_by_channel s channel.channel_id
    if mappings.isEmpty then none
    else
      let active_mappings := mappings.filter (fun m => m.is_active)
      match active_mappings with
      | [] => none
      | m0 :: _ =>
        let primary_mapping := (active_mappings.find? (fun m => m.is_primary)).getD m0
        get_agent s primary_mapping.agent_id

/-! ### Manager state with persistent containers, cache and TTL

ConfigurationManager keeps the three Cosmos containers (persistent) and the
three caches plus a cache timestamp; reads go through
_refresh_cache_if_needed.  Instants are Nat seconds of wall-clock time. -/

/-- Persistent containers plus caches plus the cache timestamp
(ConfigurationManager fields, lines 130-135 and the three containers). -/
structure ManagerState where
  agentsContainer : List Agent
  channelsContainer : List Channel
  mappingsContainer : List Mapping
  cache : ConfigState
  cacheTimestamp : Option Nat
  deriving Repr, DecidableEq

/-- Python (now - ts).seconds for now ≥ ts: the seconds component of a
normalized timedelta, i.e. the elapsed seconds modulo one day (86400 s). -/
def timedeltaSeconds (elapsed : Nat) : Nat :=
  elapsed % 86400

/-- The refresh condition of ConfigurationManager._refresh_cache_if_needed
(lines 172-177): timestamp unset, or (now - ts).seconds > ttl. -/
def cacheNeedsRefresh (cacheTimestamp : Option Nat) (now : Nat) (ttl : Nat) : Bool :=
  match cacheTimestamp with
  | none => true
  | some ts => decide (timedeltaSeconds (now - ts) > ttl)

/-- The cache contents _refresh_cache loads: the three container contents. -/
def fresh_cache_view (s : ManagerState) : ConfigState :=
  { agents := s.agentsContainer
    channels := s.channelsContainer
    mappings := s.mappingsContainer }

/-- ConfigurationManager._refresh_cache (lines 179-198): reload all three
caches from the containers and stamp the cache with the current time. -/
def refresh_cache (now : Nat) (s : ManagerState) : ManagerState :=
  { s with
    cache := fresh_cache_view s
    cacheTimestamp := some now }

/-- ConfigurationManager._refresh_cache_if_needed (lines 172-177) with the
fixed _cache_ttl = 300. -/
def refresh_cache_if_needed (now : Nat) (s : ManagerState) : ManagerState :=
  if cacheNeedsRefresh s.cacheTimestamp now 300 then refresh_cache now s else s

/-- ConfigurationManager.list_agents (lines 285-288): refresh if needed, then
return the cached agent dict values. -/
def list_agents (now : Nat) (s : ManagerState) : ManagerState × List Agent :=
  let s' := refresh_cache_if_needed now s
  (s', s'.cache.agents)

/-- Dict assignment self._mappings_cache[mapping_id] = mapping_dict on the
value list of the mappings cache: replace in place if the id is bound,
otherwise append. -/
def cacheInsertMapping (cache : List Mapping) (m : Mapping) : List Mapping :=
  match cache with
  | [] => [m]
  | m' :: rest =>
    if m'.mapping_id = m.mapping_id then m :: rest
    else m' :: cacheInsertMapping rest m

/-- ConfigurationManager.add_mapping (lines 397-417): create the item in the
mappings container (Cosmos create_item raises on a duplicate id, which the
except branch turns into False with no state change), then insert into the
mappings cache. -/
def add_mapping (s : ManagerState) (m : Mapping) : ManagerState × Bool :=
  if s.mappingsContainer.any (fun m' => m'.mapping_id = m.mapping_id) then
    (s, false)
  else
    ({ s with
       mappingsContainer := s.mappingsContainer ++ [m]
       cache := { s.cache with mappings := cacheInsertMapping s.cache.mappings m } },
     true)

/-- Cosmos replace_item on the mappings container: replace the document whose
mapping_id matches, leaving every other document in place. -/
def containerReplaceMapping (container : List Mapping) (m : Mapping) : List Mapping :=
  container.map (fun m' => if m'.mapping_id = m.mapping_id then m else m')

/-- The config-UI add-mapping route handler (routers/config_ui.py, lines
192-238).  Each cached read inside the handler calls
_refresh_cache_if_needed; since a refresh stamps the cache with `now` and a
second check at the same instant is a no-op, this is a single refresh up
front.  The demotion loop (lines 216-223) rewrites the prior primary mappings
of the channel in the *container* via replace_item, without touching the
cache; the new mapping is then inserted through ConfigurationManager
.add_mapping. -/
def ui_add_mapping (now : Nat) (s : ManagerState) (agent_id channel_id : String)
    (is_primary : Bool) (new_mapping_id : String) : Except String ManagerState :=
  let s1 := refresh_cache_if_needed now s
  match get_agent s1.cache agent_id with
  | none => .error "Agent not found"
  | some _ =>
    match get_channel s1.cache channel_id with
    | none => .error "Channel not found"
    | some _ =>
      let existing_mappings := get_mappings_by_channel s1.cache channel_id
      if ¬ (existing_mappings.filter (fun m => m.agent_id = agent_id)).isEmpty then
        .error "Mapping already exists"
      else
        let s2 :=
          if is_primary then
            { s1 with
              mappingsContainer :=
                (existing_mappings.filter (fun m => m.is_primary)).foldl
                  (fun c m => containerReplaceMapping c { m with is_primary := false })
                  s1.mappingsContainer }
          else s1
        let newMapping : Mapping :=
          { mapping_id := new_mapping_id
            agent_id := agent_id
            channel_id := channel_id
            is_primary := is_primary
            is_active := true }
        match add_mapping s2 newMapping with
        | (s3, true) => .ok s3
        | (_, false) => .error "Failed to add mapping"

/-! ### Document updates (config_manager.py update_agent / update_channel)

The two update methods read the stored document from the container, copy every
updates key except the id key into it, stamp updated_at, and write it back.
Documents are string-keyed dicts with values of an arbitrary type. -/

/-- The update loop of update_agent / update_channel (lines 233-235 resp.
323-325): for key, value in updates, skip the id key, assign the rest. -/
def apply_updates {α : Type} (idKey : String) (updates : List (String × α))
    (doc : List (String × α)) : List (String × α) :=
  updates.foldl (fun d kv => if kv.1 = idKey then d else dictSet kv.1 kv.2 d) doc

/-- ConfigurationManager.update_agent, document transformation (lines
223-253): apply the updates (the agent_id key is never overwritten), then set
updated_at to the current time. -/
def update_agent_doc {α : Type} (updates : List (String × α)) (now : α)
    (doc : List (String × α)) : List (String × α) :=
  dictSet "updated_at" now (apply_updates "agent_id" updates doc)

/-- ConfigurationManager.update_channel, document transformation (lines
313-343): same loop with channel_id as the protected key. -/
def update_channel_doc {α : Type} (updates : List (String × α)) (now : α)
    (doc : List (String × α)) : List (String × α) :=
  dictSet "updated_at" now (apply_updates "channel_id" updates doc)

/-- The value the update loop leaves for key k: the last binding of k in
updates, if any. -/
def lastUpdateValue {α : Type} (k : String) : List (String × α) → Option α
  | [] => none
  | kv :: rest =>
    match lastUpdateValue k rest with
    | some v => some v
    | none => if kv.1 = k then some kv.2 else none

/-! ## Multi-container conversation store (multi_container_conversation_store.py)

Cosmos is modelled as a dict from container name to a dict from document id to
document.  Documents are keyed by conversation_id both as id and as partition
key (lines 105-106, 138), so a single id key suffices. -/

/-- One entry of a conversation messages list.  User messages carry a
from_phone, assistant messages an agent_id (multi_agent_router.py lines
169-182); both possibilities are modelled as optional fields. -/
structure Msg where
  role : String
  content : String
  timestamp : String
  from_phone : Option String
  agent_id : Option String
  deriving Repr, DecidableEq

/-- The keys of the `conversation` dict that save_conversation reads
(lines 108-111).  created_at distinguishes an absent key (none) from a key
present with Python None (some none), because dict.get with a default only
falls back when the key is absent. -/
structure ConversationInput where
  messages : List Msg
  vars : List (String × String)
  created_at : Option (Option String)
  deriving Repr, DecidableEq

/-- The conversation document save_conversation writes (lines 104-115);
created_at mirrors metadata.created_at and may be null. -/
structure ConversationDoc where
  conversation_id : String
  phone_number : String
  messages : List Msg
  vars : List (String × String)
  created_at : Option String
  updated_at : String
  container_name : String
  deriving Repr, DecidableEq

/-- MultiContainerConversationStore._sanitize_phone_number (lines 39-47):
re.sub removing every character outside 0-9. -/
def sanitize_phone_number (phone_number : String) : String :=
  String.mk (phone_number.data.filter Char.isDigit)

/-- MultiContainerConversationStore._get_container_name (lines 49-52). -/
def get_container_name (phone_number : String) : String :=
  "conversations_" ++ sanitize_phone_number phone_number

/-- The database: container name to (conversation_id to document).
_get_or_create_container auto-creates an absent container, which the getD []
in the operations below models. -/
def StoreState : Type := List (String × List (String × ConversationDoc))

/-- The conversation document save_conversation builds (lines 104-115). -/
def saved_doc (now : String) (phone_number conversation_id : String)
    (conversation : ConversationInput) : ConversationDoc :=
  { conversation_id := conversation_id
    phone_number := phone_number
    messages := conversation.messages
    vars := conversation.vars
    created_at := match conversation.created_at with
      | none => some now
      | some v => v
    updated_at := now
    container_name := get_container_name phone_number }

/-- MultiContainerConversationStore.save_conversation (lines 91-123): resolve
the container from the phone number, build the document, upsert it by
conversation_id. -/
def save_conversation (now : String) (store : StoreState)
    (phone_number conversation_id : String) (conversation : ConversationInput) :
    StoreState :=
  let container_name := get_container_name phone_number
  let doc := saved_doc now phone_number conversation_id conversation
  let container := (dictGet container_name store).getD []
  dictSet container_name (dictSet conversation_id doc container) store

/-- MultiContainerConversationStore.get_conversation (lines 125-146): resolve
the container from the phone number, point-read by conversation_id; a missing
document is None, never an exception. -/
def get_conversation (store : StoreState) (phone_number conversation_id : String) :
    Option ConversationDoc :=
  dictGet conversation_id ((dictGet (get_container_name phone_number) store).getD [])

/-! ## Foundry agent call (foundry_agent.py, multi_agent_router.py)

The external agent service is an oracle: a run either raises somewhere inside
the ask_foundry try block, completes with status failed, or completes with a
final thread message list (ascending order, as requested at line 96). -/

/-- One content entry of a thread message: a truthy .text attribute whose
.value is read, a bare .value attribute, or neither (lines 105-113). -/
inductive FContent where
  | textItem (value : String)
  | valueItem (v : String)
  | otherItem
  deriving Repr, DecidableEq

/-- A thread message as read back from the service (role plus content list). -/
structure FMessage where
  role : String
  content : List FContent
  deriving Repr, DecidableEq

/-- Observable behaviour of the external service across one ask_foundry call:
an exception at any point of the try block, a run with status failed, or a
completed run with the resulting thread messages in ascending order. -/
inductive FoundryRun where
  | raises
  | runFailed
  | completed (messages : List FMessage)
  deriving Repr, DecidableEq

/-- The inner content scan of ask_foundry (lines 105-113): first content item
with a truthy text attribute yields text.value, else one with a value
attribute yields it; otherwise keep scanning. -/
def pickContentText : List FContent → Option String
  | [] => none
  | .textItem v :: _ => some v
  | .valueItem v :: _ => some v
  | .otherItem :: rest => pickContentText rest

/-- The message scan of ask_foundry (lines 102-113), applied to the reversed
message list: first assistant message with a non-empty content list that
yields a text; messages whose content yields nothing are skipped. -/
def findAssistantResponse : List FMessage → Option String
  | [] => none
  | m :: rest =>
    if m.role = "assistant" ∧ ¬ m.content.isEmpty then
      match pickContentText m.content with
      | some v => some v
      | none => findAssistantResponse rest
    else findAssistantResponse rest

/-- ask_foundry (consolidated-backend/foundry_agent.py, lines 33-119).
current_agent_id and current_endpoint are the or-chains of the explicit
argument with the environment default (lines 48-49), passed here already
resolved.  Every failure path returns a string; the function is total, so no
exception ever escapes to the caller. -/
def ask_foundry (current_agent_id current_endpoint : Option String)
    (run : FoundryRun) : String :=
  match current_agent_id with
  | none => "Agent configuration is missing. Please check the system configuration."
  | some _ =>
    match current_endpoint with
    | none => "Foundry endpoint configuration is missing. Please check the system configuration."
    | some _ =>
      match run with
      | .raises => "I\x27m having trouble right now—please try again."
      | .runFailed => "I\x27m having trouble right now—please try again."
      | .completed messages =>
        match findAssistantResponse messages.reverse with
        | some response_text => response_text
        | none => "I didn\x27t receive a proper response. Please try again."

/-- MultiAgentRouter._call_foundry_agent (multi_agent_router.py, lines
222-250): the ask_foundry call is observed as an Except (the call itself can
raise, e.g. on a signature mismatch); any exception becomes the apology
string naming the agent. -/
def call_foundry_agent (askOutcome : Except Unit String) (agent_name : String) : String :=
  match askOutcome with
  | .ok response => response
  | .error _ =>
    "I apologize, but I\x27m experiencing technical difficulties. Please try again later. (Agent: "
      ++ agent_name ++ ")"

/-! ## Multi-agent router (multi_agent_router.py)

The router reads the configuration manager through its cached-read methods;
the ConfigState held here is the configuration cache view those reads return.
The router keeps its own routing cache with its own 300 s TTL. -/

/-- Python to_phone.startswith("+"): the first character is a plus. -/
def starts_with_plus (s : String) : Bool :=
  match s.data with
  | [] => false
  | c :: _ => c = '+'

/-- Python "-" in to_phone: the string has a dash character. -/
def contains_dash (s : String) : Bool :=
  s.data.contains '-'

/-- One routing cache entry (lines 54-57): the resolved agent and channel. -/
structure Route where
  agent : Agent
  channel : Channel
  deriving Repr, DecidableEq

/-- The routing metadata dict built at lines 108-118. -/
structure RoutingInfo where
  agent_id : String
  agent_name : String
  foundry_endpoint : String
  channel_id : String
  channel_name : String
  channel_type : String
  business_phone : String
  customer_phone : String
  routing_timestamp : String
  deriving Repr, DecidableEq

/-- MultiAgentRouter state: the configuration view plus the routing cache and
its timestamp (lines 32-37). -/
structure RouterState where
  config : ConfigState
  routingCache : List (String × Route)
  routingTimestamp : Option Nat
  deriving Repr, DecidableEq

/-- The cache-building loop of _refresh_routing_cache (lines 45-57): for each
active channel with a truthy phone number whose phone resolves to an agent,
bind phone to the agent/channel pair. -/
def build_routing_cache (config : ConfigState) : List (String × Route) :=
  (list_channels config none (some true)).foldl
    (fun rc channel =>
      if channel.phone_number ≠ "" then
        match get_agent_for_phone config channel.phone_number with
        | some agent => dictSet channel.phone_number
            { agent := agent, channel := channel } rc
        | none => rc
      else rc)
    []

/-- MultiAgentRouter._refresh_routing_cache (lines 39-60): rebuild the cache
when the timestamp is unset or (now - ts).seconds exceeds the 300 s TTL. -/
def refresh_routing_cache (now : Nat) (st : RouterState) : RouterState :=
  if cacheNeedsRefresh st.routingTimestamp now 300 then
    { st with
      routingCache := build_routing_cache st.config
      routingTimestamp := some now }
  else st

/-- MultiAgentRouter.get_agent_for_message (lines 62-122): refresh the
routing cache; a 36-character to_phone containing a dash is resolved as a
channel id over the active channels (first match, then that channel's agent
by phone number, no normalization); any other to_phone gets a leading +
prepended if absent and is looked up in the routing cache.  The
business_phone recorded in the routing info is the locally reassigned
to_phone (normalized only on the non-channel-id path). -/
def get_agent_for_message (now : Nat) (nowIso : String) (st : RouterState)
    (from_phone to_phone : String) : RouterState × Option RoutingInfo :=
  let st := refresh_routing_cache now st
  let resolved : String × Option Route :=
    if to_phone.length = 36 ∧ contains_dash to_phone then
      let channels := list_channels st.config none (some true)
      let route := match channels.find? (fun c => c.channel_id = to_phone) with
        | none => none
        | some channel =>
          match get_agent_for_phone st.config channel.phone_number with
          | some agent => some { agent := agent, channel := channel }
          | none => none
      (to_phone, route)
    else
      let to2 := if starts_with_plus to_phone then to_phone else "+" ++ to_phone
      (to2, dictGet to2 st.routingCache)
  match resolved.2 with
  | none => (st, none)
  | some route =>
    (st, some
      { agent_id := route.agent.agent_id
        agent_name := route.agent.agent_name
        foundry_endpoint := route.agent.foundry_endpoint
        channel_id := route.channel.channel_id
        channel_name := route.channel.channel_name
        channel_type := route.channel.channel_type
        business_phone := resolved.1
        customer_phone := from_phone
        routing_timestamp := nowIso })

/-- Python from_phone.replace("+", ""): drop every plus sign. -/
def strip_plus (s : String) : String :=
  String.mk (s.data.filter (fun c => c ≠ '+'))

/-- The result dict of MultiAgentRouter.process_message (lines 141-147,
201-211, 215-220); the container_info sub-dict is carried as the container
name it records. -/
structure ProcessResult where
  success : Bool
  error : Option String
  routing_info : Option RoutingInfo
  response : Option String
  conversation_id : Option String
  container_name : Option String
  deriving Repr, DecidableEq

/-- The user message dict appended by process_message (lines 170-175). -/
def user_msg (content timestamp from_phone : String) : Msg :=
  { role := "user", content := content, timestamp := timestamp,
    from_phone := some from_phone, agent_id := none }

/-- The assistant message dict appended by process_message (lines 176-181). -/
def assistant_msg (content timestamp agent_id : String) : Msg :=
  { role := "assistant", content := content, timestamp := timestamp,
    from_phone := none, agent_id := some agent_id }

/-- MultiAgentRouter.process_message (lines 124-220).  askOutcome is the
ask_foundry call as seen by _call_foundry_agent (ok with the returned string,
or an exception); nowEpoch is int(datetime.utcnow().timestamp()) used in the
synthesized conversation id.  A falsy conversation_id (absent or empty)
triggers the synthesis at line 151.  An existing stored document has no
top-level created_at key, so existing_conversation.get("created_at") is
Python None (modelled as some none in the ConversationInput). -/
def process_message (now : Nat) (nowIso : String) (nowEpoch : Nat)
    (askOutcome : Except Unit String) (st : RouterState) (store : StoreState)
    (from_phone to_phone message_content : String)
    (conversation_id? : Option String) : RouterState × StoreState × ProcessResult :=
  match get_agent_for_message now nowIso st from_phone to_phone with
  | (st', none) =>
    (st', store,
      { success := false
        error := some ("No agent configured for business number " ++ to_phone)
        routing_info := none
        response := none
        conversation_id := none
        container_name := none })
  | (st', some routing_info) =>
    let conversation_id := match conversation_id? with
      | some cid =>
        if cid = "" then
          routing_info.channel_id ++ "_" ++ strip_plus from_phone ++ "_" ++ toString nowEpoch
        else cid
      | none =>
        routing_info.channel_id ++ "_" ++ strip_plus from_phone ++ "_" ++ toString nowEpoch
    let existing_conversation := get_conversation store to_phone conversation_id
    let agent_response := call_foundry_agent askOutcome routing_info.agent_name
    let new_messages : List Msg :=
      [ user_msg message_content nowIso from_phone,
        assistant_msg agent_response nowIso routing_info.agent_id ]
    let conversation_data : ConversationInput :=
      { messages := match existing_conversation with
          | some ex => ex.messages ++ new_messages
          | none => new_messages
        vars := match existing_conversation with
          | some ex => ex.vars
          | none => []
        created_at := match existing_conversation with
          | some _ => some none
          | none => some (some nowIso) }
    let store' := save_conversation nowIso store to_phone conversation_id conversation_data
    (st', store',
      { success := true
        error := none
        routing_info := some routing_info
        response := some agent_response
        conversation_id := some conversation_id
        container_name := some (get_container_name to_phone) })

/-! ## Service Bus processor (servicebus_processor.py) -/

/-- The fields of the decoded event payload data that _handle_message reads
(lines 97-102); media is an opaque reference handed to the media oracle. -/
structure SBData where
  channelType : String
  content : String
  fromNumber : String
  toNumber : String
  media : Option String
  deriving Repr, DecidableEq

/-- A decoded Service Bus event payload. -/
structure SBPayload where
  eventType : String
  data : SBData
  deriving Repr, DecidableEq

/-- The whitespace characters str.strip removes (ASCII range). -/
def isPyWhitespace (c : Char) : Bool :=
  c = ' ' ∨ c = '\t' ∨ c = '\n' ∨ c = '\x0d' ∨ c = '\x0b' ∨ c = '\x0c'

/-- Python str.strip(): drop whitespace from both ends. -/
def py_strip (s : String) : String :=
  String.mk (((s.data.dropWhile isPyWhitespace).reverse.dropWhile isPyWhitespace).reverse)

/-- ServiceBusBackgroundProcessor._handle_message (lines 84-144) on a decoded
payload, returning how often it invokes Router.process_message.  mediaOracle
models _process_media (which catches its own exceptions and falls back to the
existing content, so it is total); routerOracle models the router call.
Events other than the recognized type return immediately (line 93-95); blank
extracted text returns immediately (lines 108-111); the outbound send helpers
catch their own exceptions, so once the router was invoked the handler still
returns normally. -/
def handle_message (mediaOracle : String → String → String)
    (routerOracle : String → String → String → String → ProcessResult)
    (payload : SBPayload) : Nat :=
  if payload.eventType ≠ "Microsoft.Communication.AdvancedMessageReceived" then 0
  else
    let content := match payload.data.media with
      | some m => mediaOracle m payload.data.content
      | none => payload.data.content
    if content = "" ∨ py_strip content = "" then 0
    else
      let conversation_id :=
        payload.data.channelType ++ "_" ++ strip_plus payload.data.fromNumber
      let _result := routerOracle payload.data.fromNumber payload.data.toNumber
        content conversation_id
      1

/-- Disposition of one inbound queue message by _process_messages (lines
70-77): complete on normal handler return, abandon on a handler exception. -/
inductive MessageOutcome where
  | completed
  | abandoned
  deriving Repr, DecidableEq

/-- The per-message body of _process_messages (lines 70-77): a payload that
fails to decode makes _handle_message raise (it re-raises at line 144), so
the message is abandoned; otherwise the handler runs to completion and the
message is completed. -/
def process_one_message (mediaOracle : String → String → String)
    (routerOracle : String → String → String → String → ProcessResult)
    (decoded : Except String SBPayload) : MessageOutcome × Nat :=
  match decoded with
  | .error _ => (MessageOutcome.abandoned, 0)
  | .ok payload => (MessageOutcome.completed, handle_message mediaOracle routerOracle payload)

/-- A valid E.164 phone number (glossary): a leading + followed by 1 to 15
digits. -/
def is_e164 (p : String) : Bool :=
  starts_with_plus p && decide (2 ≤ p.length) && decide (p.length ≤ 16)
    && (p.data.drop 1).all Char.isDigit

/-! ### Concrete fixtures for witnesses -/

/-- A concrete user message. -/
def wMsgU : Msg :=
  { role := "user", content := "hello", timestamp := "t0",
    from_phone := some "+15550002", agent_id := none }

/-- A concrete assistant message. -/
def wMsgA : Msg :=
  { role := "assistant", content := "hi there", timestamp := "t1",
    from_phone := none, agent_id := some "asst_a1" }

/-- A concrete agent configuration. -/
def wAgent : Agent :=
  { agent_id := "asst_a1", agent_name := "Agent One", foundry_endpoint := "https://ep1" }

/-- A concrete active WhatsApp channel. -/
def wChannel : Channel :=
  { channel_id := "chan_1", channel_name := "Main", channel_type := "whatsapp",
    phone_number := "+15550001", is_active := true }

/-- A concrete active primary mapping of wAgent to wChannel. -/
def wMapping : Mapping :=
  { mapping_id := "map_1", agent_id := "asst_a1", channel_id := "chan_1",
    is_primary := true, is_active := true }

/-- A concrete configuration view with one agent, channel and mapping. -/
def wConfig : ConfigState :=
  { agents := [wAgent], channels := [wChannel], mappings := [wMapping] }

/-- A concrete active channel whose channel_id is a 36-character UUID. -/
def wUuidChannel : Channel :=
  { channel_id := "12345678-1234-1234-1234-123456789012", channel_name := "ACS",
    channel_type := "whatsapp", phone_number := "+15550001", is_active := true }

/-- A concrete active primary mapping of wAgent to wUuidChannel. -/
def wUuidMapping : Mapping :=
  { mapping_id := "map_u", agent_id := "asst_a1",
    channel_id := "12345678-1234-1234-1234-123456789012",
    is_primary := true, is_active := true }

/-- A concrete configuration whose only channel has a UUID channel_id. -/
def wConfigU : ConfigState :=
  { agents := [wAgent], channels := [wUuidChannel], mappings := [wUuidMapping] }

/-- A concrete router state over wConfigU with an empty, never-built cache. -/
def wRouterU : RouterState :=
  { config := wConfigU, routingCache := [], routingTimestamp := none }

/-- A concrete routing cache entry for wChannel and wAgent. -/
def wRoute : Route :=
  { agent := wAgent, channel := wChannel }

/-- A concrete router state whose routing cache maps +15550001 to wRoute and
was refreshed at instant 0. -/
def wRouter : RouterState :=
  { config := wConfig, routingCache := [("+15550001", wRoute)],
    routingTimestamp := some 0 }

/-- A second concrete agent. -/
def wAgent2 : Agent :=
  { agent_id := "asst_a2", agent_name := "Agent Two", foundry_endpoint := "https://ep2" }

/-- A second concrete active primary mapping for the same channel chan_1. -/
def wMapping2 : Mapping :=
  { mapping_id := "map_2", agent_id := "asst_a2", channel_id := "chan_1",
    is_primary := true, is_active := true }

/-- A concrete manager state: both agents, one channel, one primary mapping,
cache in sync with the containers and stamped at instant 0. -/
def wManager : ManagerState :=
  { agentsContainer := [wAgent, wAgent2], channelsContainer := [wChannel],
    mappingsContainer := [wMapping],
    cache := { agents := [wAgent, wAgent2], channels := [wChannel],
               mappings := [wMapping] },
    cacheTimestamp := some 0 }

/-! ## Shared lemmas -/

theorem dictGet_dictSet_self {α : Type} (k : String) (v : α) (d : List (String × α)) :
    dictGet k (dictSet k v d) = some v := by
  induction d with
  | nil => simp [dictSet, dictGet]
  | cons hd tl ih =>
    obtain ⟨k', v'⟩ := hd
    by_cases h : k' = k
    · simp [dictSet, dictGet, h]
    · simp [dictSet, dictGet, h, ih]

theorem dictGet_dictSet_ne {α : Type} {k k' : String} (hne : k' ≠ k) (v : α)
    (d : List (String × α)) : dictGet k' (dictSet k v d) = dictGet k' d := by
  induction d with
  | nil => simp [dictSet, dictGet, hne, Ne.symm hne]
  | cons hd tl ih =>
    obtain ⟨k0, v0⟩ := hd
    by_cases h : k0 = k
    · subst h
      simp [dictSet, dictGet, Ne.symm hne, hne]
    · by_cases h' : k0 = k'
      · subst h'
        simp [dictSet, dictGet, h, hne]
      · simp [dictSet, dictGet, h, h', ih]

theorem get_conversation_save_same (now : String) (store : StoreState)
    (phone cid : String) (conv : ConversationInput) :
    get_conversation (save_conversation now store phone cid conv) phone cid =
      some (saved_doc now phone cid conv) := by
  unfold get_conversation save_conversation
  rw [dictGet_dictSet_self]
  simp only [Option.getD_some]
  exact dictGet_dictSet_self _ _ _

theorem dictGet_apply_updates_id {α : Type} (idKey : String)
    (updates : List (String × α)) (doc : List (String × α)) :
    dictGet idKey (apply_updates idKey updates doc) = dictGet idKey doc := by
  induction updates generalizing doc with
  | nil => rfl
  | cons kv rest ih =>
    unfold apply_updates at ih ⊢
    rw [List.foldl_cons]
    by_cases h : kv.1 = idKey
    · simp only [h, if_pos rfl]
      exact ih doc
    · simp only [if_neg h]
      rw [ih]
      exact dictGet_dictSet_ne (fun he => h he.symm) _ _

theorem dictGet_apply_updates_ne {α : Type} {idKey k : String} (hk : k ≠ idKey)
    (updates : List (String × α)) (doc : List (String × α)) :
    dictGet k (apply_updates idKey updates doc) =
      match lastUpdateValue k updates with
      | some v => some v
      | none => dictGet k doc := by
  induction updates generalizing doc with
  | nil => rfl
  | cons kv rest ih =>
    unfold apply_updates at ih ⊢
    rw [List.foldl_cons]
    by_cases h : kv.1 = idKey
    · simp only [if_pos h]
      rw [ih]
      have hk1 : kv.1 ≠ k := by
        rw [h]; exact fun he => hk he.symm
      simp only [lastUpdateValue, if_neg hk1]
      cases lastUpdateValue k rest <;> rfl
    · simp only [if_neg h]
      rw [ih]
      simp only [lastUpdateValue]
      cases hrest : lastUpdateValue k rest with
      | some v => rfl
      | none =>
        by_cases h2 : kv.1 = k
        · subst h2
          simp only [if_pos rfl]
          exact dictGet_dictSet_self _ _ _
        · simp only [if_neg h2]
          exact dictGet_dictSet_ne (fun he => h2 he.symm) _ _

/-! ## Claim theorems -/

/-- C5: container-name derivation is the pure function stripping non-digit
characters and prepending the token conversations_; it is deterministic; the
write path (save_conversation) writes into exactly the container this
function names, leaving every other container untouched, and the read path
(get_conversation) reads from that same container, so that a read after a
write on the same phone number finds the written document. -/
theorem container_naming_single_source_of_truth (phone p₁ p₂ now cid c : String)
    (store : StoreState) (conv : ConversationInput) :
    get_container_name phone = "conversations_" ++ sanitize_phone_number phone
  ∧ sanitize_phone_number phone = String.mk (phone.data.filter Char.isDigit)
  ∧ (p₁ = p₂ → get_container_name p₁ = get_container_name p₂)
  ∧ get_conversation (save_conversation now store phone cid conv) phone cid =
      some (saved_doc now phone cid conv)
  ∧ (c ≠ get_container_name phone →
      dictGet c (save_conversation now store phone cid conv) = dictGet c store) := by
  refine ⟨rfl, rfl, fun h => by rw [h], get_conversation_save_same now store phone cid conv,
    fun hc => ?_⟩
  unfold save_conversation
  exact dictGet_dictSet_ne hc _ _

/-- C5 witness at concrete inputs. -/
theorem container_naming_single_source_of_truth_witness :
    get_container_name "+1 (832) 772-5964" =
      "conversations_" ++ sanitize_phone_number "+1 (832) 772-5964"
  ∧ ("+18327725964" = "+18327725964" →
      get_container_name "+18327725964" = get_container_name "+18327725964")
  ∧ ("conversations_15550001" ≠ get_container_name "+1 (832) 772-5964" ∧
      dictGet "conversations_15550001"
        (save_conversation "t0" [] "+1 (832) 772-5964" "c1"
          { messages := [], vars := [], created_at := none }) =
        dictGet "conversations_15550001" ([] : StoreState)) := by
  have h := container_naming_single_source_of_truth "+1 (832) 772-5964"
    "+18327725964" "+18327725964" "t0" "c1" "conversations_15550001" []
    { messages := [], vars := [], created_at := none }
  exact ⟨h.1, h.2.2.1, by decide, h.2.2.2.2 (by decide)⟩

/-- C3: saving a conversation and reading it back under the same phone number
and id yields a document whose messages sequence is exactly (hence contains,
as an order-preserving subsequence) the saved messages; and a subsequent save
of the same id whose messages extend the previously persisted sequence
leaves the previously persisted messages in place, in order, as the initial
segment of the new persisted sequence — nothing is reordered or deleted. -/
theorem save_get_conversation_append_only (now : String) (store : StoreState)
    (phone cid : String) (d : ConversationInput) :
    (∃ doc, get_conversation (save_conversation now store phone cid d) phone cid = some doc
       ∧ doc.messages = d.messages
       ∧ List.Sublist d.messages doc.messages)
  ∧ (∀ prev newMsgs, get_conversation store phone cid = some prev →
       d.messages = prev.messages ++ newMsgs →
       ∃ doc, get_conversation (save_conversation now store phone cid d) phone cid = some doc
         ∧ doc.messages = prev.messages ++ newMsgs
         ∧ doc.messages.take prev.messages.length = prev.messages
         ∧ List.Sublist prev.messages doc.messages) := by
  constructor
  · exact ⟨saved_doc now phone cid d, get_conversation_save_same now store phone cid d,
      rfl, List.Sublist.refl _⟩
  · intro prev newMsgs _ hext
    refine ⟨saved_doc now phone cid d, get_conversation_save_same now store phone cid d,
      ?_, ?_, ?_⟩
    · exact hext
    · show d.messages.take prev.messages.length = prev.messages
      rw [hext]
      exact List.take_left prev.messages newMsgs
    · show List.Sublist prev.messages d.messages
      rw [hext]
      exact List.sublist_append_left prev.messages newMsgs

/-- C3 witness: a save over a previously persisted two-message conversation
with one appended message keeps the old messages as the initial segment. -/
theorem save_get_conversation_append_only_witness :
    (∃ doc,
      get_conversation
        (save_conversation "t1"
          (save_conversation "t0" [] "+15550001" "conv1"
            { messages := [wMsgU], vars := [], created_at := some (some "t0") })
          "+15550001" "conv1"
          { messages := [wMsgU, wMsgA], vars := [], created_at := some none })
        "+15550001" "conv1" = some doc
      ∧ doc.messages = [wMsgU] ++ [wMsgA]
      ∧ doc.messages.take 1 = [wMsgU]
      ∧ List.Sublist [wMsgU] doc.messages) := by
  have h := (save_get_conversation_append_only "t1"
    (save_conversation "t0" [] "+15550001" "conv1"
      { messages := [wMsgU], vars := [], created_at := some (some "t0") })
    "+15550001" "conv1"
    { messages := [wMsgU, wMsgA], vars := [], created_at := some none }).2
    (saved_doc "t0" "+15550001" "conv1"
      { messages := [wMsgU], vars := [], created_at := some (some "t0") })
    [wMsgA]
    (get_conversation_save_same "t0" [] "+15550001" "conv1"
      { messages := [wMsgU], vars := [], created_at := some (some "t0") })
    rfl
  exact h

/-- C9: update_agent (resp. update_channel) keeps the stored identifier key
even when the updates dict rebinds it, stamps updated_at with the call time,
gives every other updated key its (last) value from updates, and leaves every
remaining stored field unchanged. -/
theorem update_doc_copies_updates_preserves_id {α : Type}
    (updates : List (String × α)) (now : α) (doc : List (String × α)) (k : String) :
    dictGet "agent_id" (update_agent_doc updates now doc) = dictGet "agent_id" doc
  ∧ dictGet "updated_at" (update_agent_doc updates now doc) = some now
  ∧ (k ≠ "agent_id" → k ≠ "updated_at" →
      dictGet k (update_agent_doc updates now doc) =
        match lastUpdateValue k updates with
        | some v => some v
        | none => dictGet k doc)
  ∧ dictGet "channel_id" (update_channel_doc updates now doc) = dictGet "channel_id" doc
  ∧ dictGet "updated_at" (update_channel_doc updates now doc) = some now
  ∧ (k ≠ "channel_id" → k ≠ "updated_at" →
      dictGet k (update_channel_doc updates now doc) =
        match lastUpdateValue k updates with
        | some v => some v
        | none => dictGet k doc) := by
  refine ⟨?_, ?_, ?_, ?_, ?_, ?_⟩
  · unfold update_agent_doc
    rw [dictGet_dictSet_ne (by decide)]
    exact dictGet_apply_updates_id _ _ _
  · exact dictGet_dictSet_self _ _ _
  · intro h1 h2
    unfold update_agent_doc
    rw [dictGet_dictSet_ne h2]
    exact dictGet_apply_updates_ne h1 _ _
  · unfold update_channel_doc
    rw [dictGet_dictSet_ne (by decide)]
    exact dictGet_apply_updates_id _ _ _
  · exact dictGet_dictSet_self _ _ _
  · intro h1 h2
    unfold update_channel_doc
    rw [dictGet_dictSet_ne h2]
    exact dictGet_apply_updates_ne h1 _ _

/-- C9 witness: a concrete update that tries to rebind agent_id and rebinds
agent_name; the id keeps its stored value, agent_name takes the update, and
an untouched field (description) is unchanged. -/
theorem update_doc_copies_updates_preserves_id_witness :
    dictGet "agent_id"
      (update_agent_doc [("agent_name", "New"), ("agent_id", "asst_2")] "T1"
        [("agent_id", "asst_1"), ("agent_name", "Old"), ("description", "d")]) =
      some "asst_1"
  ∧ dictGet "updated_at"
      (update_agent_doc [("agent_name", "New"), ("agent_id", "asst_2")] "T1"
        [("agent_id", "asst_1"), ("agent_name", "Old"), ("description", "d")]) =
      some "T1"
  ∧ dictGet "agent_name"
      (update_agent_doc [("agent_name", "New"), ("agent_id", "asst_2")] "T1"
        [("agent_id", "asst_1"), ("agent_name", "Old"), ("description", "d")]) =
      some "New"
  ∧ dictGet "description"
      (update_agent_doc [("agent_name", "New"), ("agent_id", "asst_2")] "T1"
        [("agent_id", "asst_1"), ("agent_name", "Old"), ("description", "d")]) =
      some "d" := by
  have h := update_doc_copies_updates_preserves_id
    [("agent_name", "New"), ("agent_id", "asst_2")] "T1"
    [("agent_id", "asst_1"), ("agent_name", "Old"), ("description", "d")] "agent_name"
  have h' := update_doc_copies_updates_preserves_id
    [("agent_name", "New"), ("agent_id", "asst_2")] "T1"
    [("agent_id", "asst_1"), ("agent_name", "Old"), ("description", "d")] "description"
  refine ⟨?_, h.2.1, ?_, ?_⟩
  · rw [h.1]; rfl
  · rw [h.2.2.1 (by decide) (by decide)]; rfl
  · rw [h'.2.2.1 (by decide) (by decide)]; rfl

/-- C6: a failing external agent call degrades to a textual apology and never
escapes the Router: ask_foundry (a total function here, so no exception
propagates) returns its fixed trouble string both when the service raises and
when the run status is failed, and _call_foundry_agent turns an exception of
the ask_foundry call itself into its apology string naming the agent, while
passing a successful response through — the caller always receives a string. -/
theorem agent_failure_degrades_to_apology (a e name r : String) :
    ask_foundry (some a) (some e) FoundryRun.raises =
      "I\x27m having trouble right now—please try again."
  ∧ ask_foundry (some a) (some e) FoundryRun.runFailed =
      "I\x27m having trouble right now—please try again."
  ∧ call_foundry_agent (Except.error ()) name =
      "I apologize, but I\x27m experiencing technical difficulties. Please try again later. (Agent: "
        ++ name ++ ")"
  ∧ call_foundry_agent (Except.ok r) name = r := by
  exact ⟨rfl, rfl, rfl, rfl⟩

/-- C7: an inbound queue message of the recognized event type whose extracted
text (after optional media processing) is empty or whitespace-only makes the
handler return having invoked the Router zero times, and the per-message loop
then completes (acks) the message rather than abandoning it. -/
theorem blank_inbound_acked_without_router
    (mediaOracle : String → String → String)
    (routerOracle : String → String → String → String → ProcessResult)
    (payload : SBPayload)
    (hevent : payload.eventType = "Microsoft.Communication.AdvancedMessageReceived")
    (hblank : (match payload.data.media with
               | some m => mediaOracle m payload.data.content
               | none => payload.data.content) = ""
            ∨ py_strip (match payload.data.media with
               | some m => mediaOracle m payload.data.content
               | none => payload.data.content) = "") :
    handle_message mediaOracle routerOracle payload = 0
  ∧ process_one_message mediaOracle routerOracle (Except.ok payload) =
      (MessageOutcome.completed, 0) := by
  have h1 : handle_message mediaOracle routerOracle payload = 0 := by
    unfold handle_message
    rw [hevent]
    rw [if_neg (fun h => h rfl)]
    exact if_pos hblank
  exact ⟨h1, by show (MessageOutcome.completed, handle_message mediaOracle routerOracle payload) = _; rw [h1]⟩

/-- C7 witness: a recognized event with whitespace-only content and no media
is completed with zero router invocations. -/
theorem blank_inbound_acked_without_router_witness :
    handle_message (fun _ c => c)
      (fun _ _ _ _ =>
        { success := false, error := none, routing_info := none, response := none,
          conversation_id := none, container_name := none })
      { eventType := "Microsoft.Communication.AdvancedMessageReceived",
        data := { channelType := "whatsapp", content := "  ", fromNumber := "+15550002",
                  toNumber := "+15550001", media := none } } = 0
  ∧ process_one_message (fun _ c => c)
      (fun _ _ _ _ =>
        { success := false, error := none, routing_info := none, response := none,
          conversation_id := none, container_name := none })
      (Except.ok
        { eventType := "Microsoft.Communication.AdvancedMessageReceived",
          data := { channelType := "whatsapp", content := "  ", fromNumber := "+15550002",
                    toNumber := "+15550001", media := none } }) =
      (MessageOutcome.completed, 0) :=
  blank_inbound_acked_without_router (fun _ c => c)
    (fun _ _ _ _ =>
      { success := false, error := none, routing_info := none, response := none,
        conversation_id := none, container_name := none })
    { eventType := "Microsoft.Communication.AdvancedMessageReceived",
      data := { channelType := "whatsapp", content := "  ", fromNumber := "+15550002",
                toNumber := "+15550001", media := none } }
    rfl (Or.inr (by decide))

/-- C8 (bug evidence): the refresh predicate uses timedelta.seconds, which is
the elapsed time modulo one day; at exactly 86400 s (one day, far more than
the 300 s TTL) after the last refresh it evaluates to 0 and no refresh
happens, so a cache-backed read (list_agents) serves the stale cache and
misses an agent present in persistent storage, and the router's routing-cache
refresh likewise keeps a stale empty cache even though rebuilding it would
produce a route. -/
theorem cache_not_refreshed_one_day_after_write :
    86400 - 0 > 300
  ∧ timedeltaSeconds (86400 - 0) = 0
  ∧ cacheNeedsRefresh (some 0) 86400 300 = false
  ∧ (list_agents 86400
      { agentsContainer := [wAgent], channelsContainer := [], mappingsContainer := [],
        cache := { agents := [], channels := [], mappings := [] },
        cacheTimestamp := some 0 }).2 = []
  ∧ refresh_routing_cache 86400
      { config := wConfig, routingCache := [], routingTimestamp := some 0 } =
      { config := wConfig, routingCache := [], routingTimestamp := some 0 }
  ∧ build_routing_cache wConfig = [("+15550001", { agent := wAgent, channel := wChannel })] := by
  decide

theorem dictGet_routing_foldl_none (config : ConfigState) (P : String)
    (l : List Channel) (rc : List (String × Route))
    (hl : ∀ c ∈ l, c.phone_number ≠ P) (hrc : dictGet P rc = none) :
    dictGet P (l.foldl
      (fun rc channel =>
        if channel.phone_number ≠ "" then
          match get_agent_for_phone config channel.phone_number with
          | some agent => dictSet channel.phone_number
              { agent := agent, channel := channel } rc
          | none => rc
        else rc)
      rc) = none := by
  induction l generalizing rc with
  | nil => exact hrc
  | cons c rest ih =>
    rw [List.foldl_cons]
    refine ih _ (fun c' hc' => hl c' (List.mem_cons_of_mem _ hc')) ?_
    by_cases hne : c.phone_number ≠ ""
    · rw [if_pos hne]
      cases get_agent_for_phone config c.phone_number with
      | none => exact hrc
      | some agent =>
        rw [dictGet_dictSet_ne]
        · exact hrc
        · exact fun h => hl c (List.mem_cons_self c rest) h.symm
    · rw [if_neg hne]
      exact hrc

theorem dictGet_build_routing_cache_none (config : ConfigState) (P : String)
    (hchan : ∀ c ∈ config.channels, c.is_active = true → c.phone_number ≠ P) :
    dictGet P (build_routing_cache config) = none := by
  unfold build_routing_cache
  refine dictGet_routing_foldl_none config P _ [] ?_ rfl
  intro c hc
  have hc' : c ∈ config.channels ∧ c.is_active = true := by
    simpa [list_channels] using hc
  exact hchan c hc'.1 hc'.2

theorem refresh_routing_cache_config (now : Nat) (st : RouterState) :
    (refresh_routing_cache now st).config = st.config := by
  unfold refresh_routing_cache
  by_cases h : cacheNeedsRefresh st.routingTimestamp now 300 = true
  · rw [if_pos h]
  · rw [if_neg h]

/-- C2: for a valid E.164 phone number for which no active channel is
configured (and the routing cache either due for a rebuild or free of the
number), get_agent_for_message resolves to none, and process_message returns
success false with the descriptive no-agent error, persisting nothing; both
are total functions of the embedding, so no exception reaches the caller. -/
theorem unconfigured_phone_not_routed
    (now : Nat) (nowIso : String) (nowEpoch : Nat) (ask : Except Unit String)
    (st : RouterState) (store : StoreState)
    (from_phone P text : String) (cid? : Option String)
    (hE : is_e164 P = true)
    (hchan : ∀ c ∈ st.config.channels, c.is_active = true → c.phone_number ≠ P)
    (hcache : cacheNeedsRefresh st.routingTimestamp now 300 = true ∨
              dictGet P st.routingCache = none) :
    (get_agent_for_message now nowIso st from_phone P).2 = none
  ∧ (process_message now nowIso nowEpoch ask st store from_phone P text cid?).2.2 =
      { success := false,
        error := some ("No agent configured for business number " ++ P),
        routing_info := none, response := none, conversation_id := none,
        container_name := none }
  ∧ (process_message now nowIso nowEpoch ask st store from_phone P text cid?).2.1 =
      store := by
  simp only [is_e164, Bool.and_eq_true, decide_eq_true_eq] at hE
  obtain ⟨⟨⟨hplus, _⟩, h16⟩, _⟩ := hE
  have h36 : ¬(P.length = 36 ∧ contains_dash P = true) := by
    rintro ⟨hl, _⟩
    omega
  have hnone : dictGet P (refresh_routing_cache now st).routingCache = none := by
    cases hb : cacheNeedsRefresh st.routingTimestamp now 300 with
    | true =>
      simp only [refresh_routing_cache, hb, if_true]
      exact dictGet_build_routing_cache_none st.config P hchan
    | false =>
      rcases hcache with h | h
      · rw [hb] at h
        cases h
      · simpa [refresh_routing_cache, hb] using h
  have hmain : get_agent_for_message now nowIso st from_phone P =
      (refresh_routing_cache now st, none) := by
    unfold get_agent_for_message
    simp only [if_neg h36, if_pos hplus, hnone]
  refine ⟨by rw [hmain], ?_, ?_⟩
  · unfold process_message
    rw [hmain]
  · unfold process_message
    rw [hmain]

/-- C2 witness: +15559999 has no active channel in the concrete
configuration, the router has never refreshed its cache, and the call is
rejected with the descriptive error while the store stays empty. -/
theorem unconfigured_phone_not_routed_witness :
    (get_agent_for_message 0 "T0"
      { config := wConfig, routingCache := [], routingTimestamp := none }
      "+15550002" "+15559999").2 = none
  ∧ (process_message 0 "T0" 0 (Except.ok "hi")
      { config := wConfig, routingCache := [], routingTimestamp := none }
      [] "+15550002" "+15559999" "hello" none).2.2 =
      { success := false,
        error := some ("No agent configured for business number " ++ "+15559999"),
        routing_info := none, response := none, conversation_id := none,
        container_name := none }
  ∧ (process_message 0 "T0" 0 (Except.ok "hi")
      { config := wConfig, routingCache := [], routingTimestamp := none }
      [] "+15550002" "+15559999" "hello" none).2.1 = [] :=
  unconfigured_phone_not_routed 0 "T0" 0 (Except.ok "hi")
    { config := wConfig, routingCache := [], routingTimestamp := none }
    [] "+15550002" "+15559999" "hello" none
    (by decide) (by decide) (Or.inl (by decide))

theorem contains_dash_plus_append (s : String) :
    contains_dash ("+" ++ s) = contains_dash s := by
  show (String.data ("+" ++ s)).contains '-' = s.data.contains '-'
  rw [String.data_append]
  show (('+' == '-') || s.data.contains '-') = s.data.contains '-'
  rfl

theorem starts_with_plus_append (s : String) :
    starts_with_plus ("+" ++ s) = true := by
  show (match ("+" ++ s).data with
        | [] => false
        | c :: _ => decide (c = '+')) = true
  rw [String.data_append]
  rfl

/-- C10: a 36-character to_phone containing a dash is resolved as a channel
id — the first active channel with that id, then that channel's agent by its
phone number — and the routing info records the raw to_phone as
business_phone, with no E.164 normalization; any other to_phone without a
leading plus (here: dash-free, as phone numbers are) is resolved exactly as
its plus-prefixed form, so 18327725964 and +18327725964 yield the same
route. -/
theorem to_phone_channel_id_or_normalized (now : Nat) (nowIso : String)
    (st : RouterState) (from_phone to_phone : String) :
    (to_phone.length = 36 → contains_dash to_phone = true →
      ∀ ch agent,
        (list_channels st.config none (some true)).find?
            (fun c => c.channel_id = to_phone) = some ch →
        get_agent_for_phone st.config ch.phone_number = some agent →
        (get_agent_for_message now nowIso st from_phone to_phone).2 =
          some { agent_id := agent.agent_id, agent_name := agent.agent_name,
                 foundry_endpoint := agent.foundry_endpoint,
                 channel_id := ch.channel_id, channel_name := ch.channel_name,
                 channel_type := ch.channel_type,
                 business_phone := to_phone, customer_phone := from_phone,
                 routing_timestamp := nowIso })
  ∧ (starts_with_plus to_phone = false → contains_dash to_phone = false →
      get_agent_for_message now nowIso st from_phone to_phone =
        get_agent_for_message now nowIso st from_phone ("+" ++ to_phone)) := by
  constructor
  · intro h36 hdash ch agent hfind hagent
    unfold get_agent_for_message
    simp only [if_pos (And.intro h36 hdash), refresh_routing_cache_config, hfind, hagent]
  · intro hplus hdash
    have hd2 : contains_dash ("+" ++ to_phone) = false := by
      rw [contains_dash_plus_append]
      exact hdash
    have hc1 : ¬(to_phone.length = 36 ∧ contains_dash to_phone = true) := by
      rintro ⟨_, h⟩
      rw [hdash] at h
      cases h
    have hc2 : ¬(("+" ++ to_phone).length = 36 ∧ contains_dash ("+" ++ to_phone) = true) := by
      rintro ⟨_, h⟩
      rw [hd2] at h
      cases h
    unfold get_agent_for_message
    simp only [if_neg hc1, if_neg hc2, hplus, starts_with_plus_append,
      Bool.false_eq_true, if_false, if_true]

/-- C10 witness: a UUID-shaped to_phone resolves through the channel id with
the raw id recorded as business_phone, and a bare-digit to_phone resolves
exactly as its plus-prefixed form. -/
theorem to_phone_channel_id_or_normalized_witness :
    (get_agent_for_message 0 "T0" wRouterU "+15550002"
        "12345678-1234-1234-1234-123456789012").2 =
      some { agent_id := "asst_a1", agent_name := "Agent One",
             foundry_endpoint := "https://ep1",
             channel_id := "12345678-1234-1234-1234-123456789012",
             channel_name := "ACS", channel_type := "whatsapp",
             business_phone := "12345678-1234-1234-1234-123456789012",
             customer_phone := "+15550002", routing_timestamp := "T0" }
  ∧ get_agent_for_message 0 "T0" wRouterU "+15550002" "18327725964" =
      get_agent_for_message 0 "T0" wRouterU "+15550002" ("+" ++ "18327725964") := by
  constructor
  · exact (to_phone_channel_id_or_normalized 0 "T0" wRouterU "+15550002"
      "12345678-1234-1234-1234-123456789012").1 (by decide) (by decide)
      wUuidChannel wAgent (by decide) (by decide)
  · exact (to_phone_channel_id_or_normalized 0 "T0" wRouterU "+15550002"
      "18327725964").2 (by decide) (by decide)

theorem refresh_routing_cache_fresh {now : Nat} {st : RouterState}
    (hfresh : cacheNeedsRefresh st.routingTimestamp now 300 = false) :
    refresh_routing_cache now st = st := by
  unfold refresh_routing_cache
  simp [hfresh]

theorem get_agent_for_message_cached {now : Nat} {nowIso : String} {st : RouterState}
    {from_phone to_phone : String} {route : Route}
    (hfresh : cacheNeedsRefresh st.routingTimestamp now 300 = false)
    (h36 : ¬(to_phone.length = 36 ∧ contains_dash to_phone = true))
    (hplus : starts_with_plus to_phone = true)
    (hroute : dictGet to_phone st.routingCache = some route) :
    get_agent_for_message now nowIso st from_phone to_phone =
      (st, some
        { agent_id := route.agent.agent_id
          agent_name := route.agent.agent_name
          foundry_endpoint := route.agent.foundry_endpoint
          channel_id := route.channel.channel_id
          channel_name := route.channel.channel_name
          channel_type := route.channel.channel_type
          business_phone := to_phone
          customer_phone := from_phone
          routing_timestamp := nowIso }) := by
  unfold get_agent_for_message
  rw [refresh_routing_cache_fresh hfresh]
  simp only [if_neg h36, hplus, if_true, hroute]

theorem process_message_cached_route {now : Nat} {nowIso : String} {nowEpoch : Nat}
    {ask : Except Unit String} {st : RouterState} {store : StoreState}
    {from_phone to_phone text cid : String} {route : Route}
    (hfresh : cacheNeedsRefresh st.routingTimestamp now 300 = false)
    (h36 : ¬(to_phone.length = 36 ∧ contains_dash to_phone = true))
    (hplus : starts_with_plus to_phone = true)
    (hroute : dictGet to_phone st.routingCache = some route)
    (hcid : ¬ cid = "") :
    process_message now nowIso nowEpoch ask st store from_phone to_phone text (some cid) =
      (st,
       save_conversation nowIso store to_phone cid
        { messages := match get_conversation store to_phone cid with
            | some ex => ex.messages ++
                [ user_msg text nowIso from_phone,
                  assistant_msg (call_foundry_agent ask route.agent.agent_name) nowIso
                    route.agent.agent_id ]
            | none =>
                [ user_msg text nowIso from_phone,
                  assistant_msg (call_foundry_agent ask route.agent.agent_name) nowIso
                    route.agent.agent_id ]
          vars := match get_conversation store to_phone cid with
            | some ex => ex.vars
            | none => []
          created_at := match get_conversation store to_phone cid with
            | some _ => some none
            | none => some (some nowIso) },
       { success := true
         error := none
         routing_info := some
          { agent_id := route.agent.agent_id
            agent_name := route.agent.agent_name
            foundry_endpoint := route.agent.foundry_endpoint
            channel_id := route.channel.channel_id
            channel_name := route.channel.channel_name
            channel_type := route.channel.channel_type
            business_phone := to_phone
            customer_phone := from_phone
            routing_timestamp := nowIso }
         response := some (call_foundry_agent ask route.agent.agent_name)
         conversation_id := some cid
         container_name := some (get_container_name to_phone) }) := by
  unfold process_message
  rw [get_agent_for_message_cached hfresh h36 hplus hroute]
  simp only [if_neg hcid]

/-- C4: a successful process_message call appends exactly one user message
(the inbound text) followed by exactly one assistant message (the agent
response) after all previously persisted messages; a second call with the
same conversation_id (here: onto a conversation the first call created)
leaves the first user/assistant pair unchanged as the first two persisted
messages and the conversation then holds 4 messages in total. -/
theorem process_message_appends_ordered_pairs
    (now₁ now₂ : Nat) (iso₁ iso₂ : String) (e₁ e₂ : Nat)
    (ask₁ ask₂ : Except Unit String) (st : RouterState) (store : StoreState)
    (from₁ from₂ to_phone text₁ text₂ cid : String) (route : Route)
    (hfresh₁ : cacheNeedsRefresh st.routingTimestamp now₁ 300 = false)
    (hfresh₂ : cacheNeedsRefresh st.routingTimestamp now₂ 300 = false)
    (h36 : ¬(to_phone.length = 36 ∧ contains_dash to_phone = true))
    (hplus : starts_with_plus to_phone = true)
    (hroute : dictGet to_phone st.routingCache = some route)
    (hcid : ¬ cid = "")
    (hnew : get_conversation store to_phone cid = none) :
    ∃ doc₁ doc₂ : ConversationDoc,
      (process_message now₁ iso₁ e₁ ask₁ st store from₁ to_phone text₁ (some cid)).1 = st
    ∧ (process_message now₁ iso₁ e₁ ask₁ st store from₁ to_phone text₁
        (some cid)).2.2.success = true
    ∧ get_conversation
        (process_message now₁ iso₁ e₁ ask₁ st store from₁ to_phone text₁
          (some cid)).2.1 to_phone cid = some doc₁
    ∧ doc₁.messages =
        [ user_msg text₁ iso₁ from₁,
          assistant_msg (call_foundry_agent ask₁ route.agent.agent_name) iso₁
            route.agent.agent_id ]
    ∧ (process_message now₂ iso₂ e₂ ask₂ st
        (process_message now₁ iso₁ e₁ ask₁ st store from₁ to_phone text₁
          (some cid)).2.1 from₂ to_phone text₂ (some cid)).2.2.success = true
    ∧ get_conversation
        (process_message now₂ iso₂ e₂ ask₂ st
          (process_message now₁ iso₁ e₁ ask₁ st store from₁ to_phone text₁
            (some cid)).2.1 from₂ to_phone text₂ (some cid)).2.1 to_phone cid =
        some doc₂
    ∧ doc₂.messages = doc₁.messages ++
        [ user_msg text₂ iso₂ from₂,
          assistant_msg (call_foundry_agent ask₂ route.agent.agent_name) iso₂
            route.agent.agent_id ]
    ∧ doc₂.messages.length = 4
    ∧ doc₂.messages.take 2 = doc₁.messages := by
  have h1 : process_message now₁ iso₁ e₁ ask₁ st store from₁ to_phone text₁ (some cid) =
      (st,
       save_conversation iso₁ store to_phone cid
        { messages :=
            [ user_msg text₁ iso₁ from₁,
              assistant_msg (call_foundry_agent ask₁ route.agent.agent_name) iso₁
                route.agent.agent_id ]
          vars := []
          created_at := some (some iso₁) },
       { success := true
         error := none
         routing_info := some
          { agent_id := route.agent.agent_id
            agent_name := route.agent.agent_name
            foundry_endpoint := route.agent.foundry_endpoint
            channel_id := route.channel.channel_id
            channel_name := route.channel.channel_name
            channel_type := route.channel.channel_type
            business_phone := to_phone
            customer_phone := from₁
            routing_timestamp := iso₁ }
         response := some (call_foundry_agent ask₁ route.agent.agent_name)
         conversation_id := some cid
         container_name := some (get_container_name to_phone) }) := by
    rw [process_message_cached_route hfresh₁ h36 hplus hroute hcid]
    simp only [hnew]
  have hget₁ := get_conversation_save_same iso₁ store to_phone cid
    { messages :=
        [ user_msg text₁ iso₁ from₁,
          assistant_msg (call_foundry_agent ask₁ route.agent.agent_name) iso₁
            route.agent.agent_id ]
      vars := []
      created_at := some (some iso₁) }
  have h2 : process_message now₂ iso₂ e₂ ask₂ st
      (save_conversation iso₁ store to_phone cid
        { messages :=
            [ user_msg text₁ iso₁ from₁,
              assistant_msg (call_foundry_agent ask₁ route.agent.agent_name) iso₁
                route.agent.agent_id ]
          vars := []
          created_at := some (some iso₁) }) from₂ to_phone text₂ (some cid) =
      (st,
       save_conversation iso₂
        (save_conversation iso₁ store to_phone cid
          { messages :=
              [ user_msg text₁ iso₁ from₁,
                assistant_msg (call_foundry_agent ask₁ route.agent.agent_name) iso₁
                  route.agent.agent_id ]
            vars := []
            created_at := some (some iso₁) }) to_phone cid
        { messages :=
            (saved_doc iso₁ to_phone cid
              { messages :=
                  [ user_msg text₁ iso₁ from₁,
                    assistant_msg (call_foundry_agent ask₁ route.agent.agent_name) iso₁
                      route.agent.agent_id ]
                vars := []
                created_at := some (some iso₁) }).messages ++
            [ user_msg text₂ iso₂ from₂,
              assistant_msg (call_foundry_agent ask₂ route.agent.agent_name) iso₂
                route.agent.agent_id ]
          vars :=
            (saved_doc iso₁ to_phone cid
              { messages :=
                  [ user_msg text₁ iso₁ from₁,
                    assistant_msg (call_foundry_agent ask₁ route.agent.agent_name) iso₁
                      route.agent.agent_id ]
                vars := []
                created_at := some (some iso₁) }).vars
          created_at := some none },
       { success := true
         error := none
         routing_info := some
          { agent_id := route.agent.agent_id
            agent_name := route.agent.agent_name
            foundry_endpoint := route.agent.foundry_endpoint
            channel_id := route.channel.channel_id
            channel_name := route.channel.channel_name
            channel_type := route.channel.channel_type
            business_phone := to_phone
            customer_phone := from₂
            routing_timestamp := iso₂ }
         response := some (call_foundry_agent ask₂ route.agent.agent_name)
         conversation_id := some cid
         container_name := some (get_container_name to_phone) }) := by
    rw [process_message_cached_route hfresh₂ h36 hplus hroute hcid]
    simp only [hget₁]
  refine ⟨saved_doc iso₁ to_phone cid
      { messages :=
          [ user_msg text₁ iso₁ from₁,
            assistant_msg (call_foundry_agent ask₁ route.agent.agent_name) iso₁
              route.agent.agent_id ]
        vars := []
        created_at := some (some iso₁) },
    saved_doc iso₂ to_phone cid
      { messages :=
          (saved_doc iso₁ to_phone cid
            { messages :=
                [ user_msg text₁ iso₁ from₁,
                  assistant_msg (call_foundry_agent ask₁ route.agent.agent_name) iso₁
                    route.agent.agent_id ]
              vars := []
              created_at := some (some iso₁) }).messages ++
          [ user_msg text₂ iso₂ from₂,
            assistant_msg (call_foundry_agent ask₂ route.agent.agent_name) iso₂
              route.agent.agent_id ]
        vars :=
          (saved_doc iso₁ to_phone cid
            { messages :=
                [ user_msg text₁ iso₁ from₁,
                  assistant_msg (call_foundry_agent ask₁ route.agent.agent_name) iso₁
                    route.agent.agent_id ]
              vars := []
              created_at := some (some iso₁) }).vars
        created_at := some none },
    ?_, ?_, ?_, rfl, ?_, ?_, rfl, rfl, rfl⟩
  · rw [h1]
  · rw [h1]
  · simp only [h1]
    exact hget₁
  · simp only [h1, h2]
  · simp only [h1, h2]
    exact get_conversation_save_same _ _ _ _ _

/-- C4 witness: two concrete calls with the same conversation id against the
fixture route leave a 4-message conversation whose first pair is the first
call's user/assistant exchange. -/
theorem process_message_appends_ordered_pairs_witness :
    ∃ doc₁ doc₂ : ConversationDoc,
      (process_message 0 "T1" 0 (Except.ok "Hello!") wRouter [] "+15550002"
        "+15550001" "hello" (some "conv1")).1 = wRouter
    ∧ (process_message 0 "T1" 0 (Except.ok "Hello!") wRouter [] "+15550002"
        "+15550001" "hello" (some "conv1")).2.2.success = true
    ∧ get_conversation
        (process_message 0 "T1" 0 (Except.ok "Hello!") wRouter [] "+15550002"
          "+15550001" "hello" (some "conv1")).2.1 "+15550001" "conv1" = some doc₁
    ∧ doc₁.messages =
        [ user_msg "hello" "T1" "+15550002",
          assistant_msg (call_foundry_agent (Except.ok "Hello!") wRoute.agent.agent_name)
            "T1" wRoute.agent.agent_id ]
    ∧ (process_message 0 "T2" 0 (Except.ok "Welcome back!") wRouter
        (process_message 0 "T1" 0 (Except.ok "Hello!") wRouter [] "+15550002"
          "+15550001" "hello" (some "conv1")).2.1 "+15550003" "+15550001"
        "hi again" (some "conv1")).2.2.success = true
    ∧ get_conversation
        (process_message 0 "T2" 0 (Except.ok "Welcome back!") wRouter
          (process_message 0 "T1" 0 (Except.ok "Hello!") wRouter [] "+15550002"
            "+15550001" "hello" (some "conv1")).2.1 "+15550003" "+15550001"
          "hi again" (some "conv1")).2.1 "+15550001" "conv1" = some doc₂
    ∧ doc₂.messages = doc₁.messages ++
        [ user_msg "hi again" "T2" "+15550003",
          assistant_msg (call_foundry_agent (Except.ok "Welcome back!") wRoute.agent.agent_name)
            "T2" wRoute.agent.agent_id ]
    ∧ doc₂.messages.length = 4
    ∧ doc₂.messages.take 2 = doc₁.messages :=
  process_message_appends_ordered_pairs 0 0 "T1" "T2" 0 0
    (Except.ok "Hello!") (Except.ok "Welcome back!") wRouter []
    "+15550002" "+15550003" "+15550001" "hello" "hi again" "conv1" wRoute
    (by decide) (by decide) (by decide) (by decide) (by decide) (by decide) (by decide)

theorem find?_eq_of_unique {α : Type} (l : List α) (p : α → Bool) (x : α)
    (hx : x ∈ l) (hpx : p x = true) (huniq : ∀ y ∈ l, p y = true → y = x) :
    l.find? p = some x := by
  induction l with
  | nil => cases hx
  | cons a t ih =>
    by_cases hpa : p a = true
    · rw [List.find?_cons_of_pos _ hpa]
      rw [huniq a (List.mem_cons_self a t) hpa]
    · rw [List.find?_cons_of_neg _ hpa]
      have hxt : x ∈ t := by
        cases List.mem_cons.mp hx with
        | inl h => exact absurd (h ▸ hpx) hpa
        | inr h => exact h
      exact ih hxt (fun y hy hpy => huniq y (List.mem_cons_of_mem a hy) hpy)

/-- Resolution part of C1 (get_agent_for_phone, lines 447-468): a channel
which uniquely owns its phone number and has exactly one active primary
mapping resolves to the agent that mapping references. -/
theorem get_agent_for_phone_unique_primary (s : ConfigState) (C : Channel)
    (m : Mapping)
    (hC : C ∈ s.channels)
    (hCuniq : ∀ C' ∈ s.channels, C'.phone_number = C.phone_number → C' = C)
    (hm : m ∈ s.mappings) (hmc : m.channel_id = C.channel_id)
    (hma : m.is_active = true) (hmp : m.is_primary = true)
    (hmuniq : ∀ m' ∈ s.mappings, m'.channel_id = C.channel_id →
      m'.is_active = true → m'.is_primary = true → m' = m) :
    get_agent_for_phone s C.phone_number = get_agent s m.agent_id := by
  have hfind : get_channel_by_phone s C.phone_number = some C := by
    refine find?_eq_of_unique s.channels _ C hC (by simp) ?_
    intro y hy hpy
    exact hCuniq y hy (by simpa using hpy)
  have hmem : m ∈ get_mappings_by_channel s C.channel_id := by
    refine List.mem_filter.mpr ⟨hm, ?_⟩
    simp [hmc]
  have hmemA : m ∈ (get_mappings_by_channel s C.channel_id).filter
      (fun m => m.is_active) := by
    refine List.mem_filter.mpr ⟨hmem, ?_⟩
    simp [hma]
  have hne : (get_mappings_by_channel s C.channel_id).isEmpty = false := by
    cases heq : get_mappings_by_channel s C.channel_id with
    | nil => rw [heq] at hmem; cases hmem
    | cons a t => rfl
  have hfind2 : ((get_mappings_by_channel s C.channel_id).filter
      (fun m => m.is_active)).find? (fun m => m.is_primary) = some m := by
    refine find?_eq_of_unique _ _ m hmemA hmp ?_
    intro y hy hpy
    have hy' := List.mem_filter.mp hy
    have hy'' := List.mem_filter.mp hy'.1
    refine hmuniq y hy''.1 ?_ ?_ hpy
    · simpa using hy''.2
    · simpa using hy'.2
  unfold get_agent_for_phone
  rw [hfind]
  simp only [hne, Bool.false_eq_true, if_false, hfind2]
  cases heq : (get_mappings_by_channel s C.channel_id).filter (fun m => m.is_active) with
  | nil => rw [heq] at hmemA; cases hmemA
  | cons m0 rest =>
    simp only [heq] at hfind2 ⊢
    simp only [hfind2, Option.getD_some]

/-- Insertion part of C1 as the code actually behaves
(ConfigurationManager.add_mapping, lines 397-417): a mapping with a fresh id
is appended to the container and inserted into the cache, and nothing else
changes — in particular no existing primary mapping is demoted. -/
theorem add_mapping_appends_without_demotion (s : ManagerState) (m : Mapping)
    (hfresh : s.mappingsContainer.any
      (fun m' => m'.mapping_id = m.mapping_id) = false) :
    add_mapping s m =
      ({ s with
         mappingsContainer := s.mappingsContainer ++ [m]
         cache := { s.cache with
                    mappings := cacheInsertMapping s.cache.mappings m } }, true)
  ∧ ∀ mOld ∈ s.mappingsContainer, mOld ∈ (add_mapping s m).1.mappingsContainer := by
  have h1 : add_mapping s m =
      ({ s with
         mappingsContainer := s.mappingsContainer ++ [m]
         cache := { s.cache with
                    mappings := cacheInsertMapping s.cache.mappings m } }, true) := by
    unfold add_mapping
    rw [hfresh]
    rfl
  refine ⟨h1, ?_⟩
  intro mOld hmOld
  rw [h1]
  exact List.mem_append_left _ hmOld

theorem demote_fold_mem (P : List Mapping) (c : List Mapping) (doc : Mapping)
    (hdoc : doc ∈ P.foldl
      (fun c m => containerReplaceMapping c { m with is_primary := false }) c) :
    (doc.is_primary = true → doc ∈ c ∧ ∀ m ∈ P, doc.mapping_id ≠ m.mapping_id)
  ∧ ∃ d ∈ c, doc.mapping_id = d.mapping_id := by
  induction P generalizing c with
  | nil =>
    exact ⟨fun _ => ⟨hdoc, fun m hm => absurd hm (List.not_mem_nil m)⟩,
      ⟨doc, hdoc, rfl⟩⟩
  | cons m rest ih =>
    rw [List.foldl_cons] at hdoc
    obtain ⟨hprim, hid⟩ := ih _ hdoc
    constructor
    · intro hp
      obtain ⟨hdoc', hrest⟩ := hprim hp
      obtain ⟨d, hd, hd'⟩ := List.mem_map.mp hdoc'
      by_cases hdm : d.mapping_id = ({ m with is_primary := false } : Mapping).mapping_id
      · rw [if_pos hdm] at hd'
        rw [← hd'] at hp
        cases hp
      · rw [if_neg hdm] at hd'
        subst hd'
        refine ⟨hd, ?_⟩
        intro m' hm'
        cases List.mem_cons.mp hm' with
        | inl h => subst h; exact hdm
        | inr h => exact hrest m' h
    · obtain ⟨d', hd', hd'eq⟩ := hid
      obtain ⟨d, hd, hdd⟩ := List.mem_map.mp hd'
      refine ⟨d, hd, ?_⟩
      by_cases hdm : d.mapping_id = ({ m with is_primary := false } : Mapping).mapping_id
      · rw [if_pos hdm] at hdd
        rw [hd'eq, ← hdd]
        exact hdm.symm
      · rw [if_neg hdm] at hdd
        rw [hd'eq, ← hdd]

/-- Demotion part of C1 as implemented (routers/config_ui.py lines 192-238):
inserting a primary mapping through the config-UI route clears is_primary on
every other mapping of the channel in the persistent mappings container, so
at most one primary mapping for the channel survives there. -/
theorem ui_add_mapping_demotes_in_container
    (now : Nat) (s : ManagerState) (agent_id channel_id new_id : String)
    (a : Agent) (ch : Channel)
    (hstale : cacheNeedsRefresh s.cacheTimestamp now 300 = true)
    (hagent : get_agent (fresh_cache_view s) agent_id = some a)
    (hchan : get_channel (fresh_cache_view s) channel_id = some ch)
    (hnoexist : (get_mappings_by_channel (fresh_cache_view s) channel_id).filter
        (fun m => m.agent_id = agent_id) = [])
    (hnewid : s.mappingsContainer.any (fun m' => m'.mapping_id = new_id) = false) :
    ∃ s', ui_add_mapping now s agent_id channel_id true new_id = Except.ok s'
      ∧ ({ mapping_id := new_id, agent_id := agent_id, channel_id := channel_id,
           is_primary := true, is_active := true } : Mapping) ∈ s'.mappingsContainer
      ∧ ∀ m' ∈ s'.mappingsContainer, m'.channel_id = channel_id →
          m'.is_primary = true →
          m' = { mapping_id := new_id, agent_id := agent_id,
                 channel_id := channel_id, is_primary := true, is_active := true } := by
  have hs1 : refresh_cache_if_needed now s = refresh_cache now s := by
    unfold refresh_cache_if_needed
    rw [hstale]
    rfl
  have hempty : ((get_mappings_by_channel (fresh_cache_view s) channel_id).filter
      (fun m => m.agent_id = agent_id)).isEmpty = true := by
    rw [hnoexist]
    rfl
  have hany2 : ((((get_mappings_by_channel (fresh_cache_view s) channel_id).filter
      (fun m => m.is_primary)).foldl
      (fun c m => containerReplaceMapping c { m with is_primary := false })
      s.mappingsContainer).any
        (fun m' => m'.mapping_id = new_id)) = false := by
    by_contra hcon
    have hcon' := Bool.of_not_eq_false hcon
    obtain ⟨doc, hdoc, hdocid⟩ := List.any_eq_true.mp hcon'
    obtain ⟨-, d, hd, hdid⟩ := demote_fold_mem _ _ doc hdoc
    have : s.mappingsContainer.any (fun m' => m'.mapping_id = new_id) = true := by
      refine List.any_eq_true.mpr ⟨d, hd, ?_⟩
      simp only [decide_eq_true_eq] at hdocid ⊢
      rw [← hdid]
      exact hdocid
    rw [this] at hnewid
    cases hnewid
  have hadd := add_mapping_appends_without_demotion
    { agentsContainer := s.agentsContainer
      channelsContainer := s.channelsContainer
      mappingsContainer :=
        (((get_mappings_by_channel (fresh_cache_view s) channel_id).filter
            (fun m => m.is_primary)).foldl
          (fun c m => containerReplaceMapping c { m with is_primary := false })
          s.mappingsContainer)
      cache := fresh_cache_view s
      cacheTimestamp := some now }
    { mapping_id := new_id, agent_id := agent_id, channel_id := channel_id,
      is_primary := true, is_active := true }
    hany2
  have hui : ui_add_mapping now s agent_id channel_id true new_id =
      Except.ok (add_mapping
        { agentsContainer := s.agentsContainer
          channelsContainer := s.channelsContainer
          mappingsContainer :=
            (((get_mappings_by_channel (fresh_cache_view s) channel_id).filter
                (fun m => m.is_primary)).foldl
              (fun c m => containerReplaceMapping c { m with is_primary := false })
              s.mappingsContainer)
          cache := fresh_cache_view s
          cacheTimestamp := some now }
        { mapping_id := new_id, agent_id := agent_id, channel_id := channel_id,
          is_primary := true, is_active := true }).1 := by
    unfold ui_add_mapping
    rw [hs1]
    simp only [refresh_cache]
    rw [hagent, hchan]
    simp only [hempty, eq_self_iff_true, not_true, if_false, if_true]
    rw [hadd.1]
  refine ⟨_, hui, ?_, ?_⟩
  · rw [hadd.1]
    exact List.mem_append_right _ (List.mem_cons_self _ _)
  · intro m' hm' hmc hmp
    rw [hadd.1] at hm'
    cases List.mem_append.mp hm' with
    | inr h =>
      cases List.mem_cons.mp h with
      | inl h' => exact h'
      | inr h' => cases h'
    | inl h =>
      obtain ⟨hprim, -⟩ := demote_fold_mem _ _ m' h
      obtain ⟨hmem, hids⟩ := hprim hmp
      exfalso
      refine hids m' ?_ rfl
      refine List.mem_filter.mpr ⟨?_, ?_⟩
      · refine List.mem_filter.mpr ⟨hmem, ?_⟩
        simp [hmc]
      · simp [hmp]

/-- C1 counterexample: ConfigurationManager.add_mapping accepts a second
active is_primary mapping for channel chan_1 and performs no demotion — the
previously primary mapping survives unchanged, and the container then holds
two active primary mappings for the channel, contradicting the claim that at
most one active primary mapping survives the insert. -/
theorem add_mapping_second_primary_not_demoted :
    (add_mapping wManager wMapping2).2 = true
  ∧ wMapping ∈ (add_mapping wManager wMapping2).1.mappingsContainer
  ∧ wMapping.is_primary = true
  ∧ wMapping.is_active = true
  ∧ ((add_mapping wManager wMapping2).1.mappingsContainer.filter
      (fun m => m.channel_id = "chan_1" && m.is_active && m.is_primary)).length = 2 := by
  decide

/-- C1 (amended): (1) for a channel that uniquely owns its phone number and
has exactly one active primary mapping, get_agent_for_phone returns the agent
that mapping's agent_id references; (2) ConfigurationManager.add_mapping
performs no demotion — it appends the new mapping and leaves every existing
mapping (a prior primary included) unchanged, so two active primary mappings
can coexist after it; (3) demotion is implemented only in the config-UI
add-mapping route, which clears is_primary on the channel's existing primary
mappings in the persistent container before inserting, so after that route at
most one primary mapping for the channel survives in the container. -/
theorem primary_resolution_and_demotion_only_in_ui_route :
    (∀ (s : ConfigState) (C : Channel) (m : Mapping),
       C ∈ s.channels →
       (∀ C' ∈ s.channels, C'.phone_number = C.phone_number → C' = C) →
       m ∈ s.mappings → m.channel_id = C.channel_id →
       m.is_active = true → m.is_primary = true →
       (∀ m' ∈ s.mappings, m'.channel_id = C.channel_id → m'.is_active = true →
         m'.is_primary = true → m' = m) →
       get_agent_for_phone s C.phone_number = get_agent s m.agent_id)
  ∧ (∀ (s : ManagerState) (m : Mapping),
       s.mappingsContainer.any (fun m' => m'.mapping_id = m.mapping_id) = false →
       (add_mapping s m).2 = true
       ∧ (add_mapping s m).1.mappingsContainer = s.mappingsContainer ++ [m])
  ∧ (∀ (now : Nat) (s : ManagerState) (agent_id channel_id new_id : String)
       (a : Agent) (ch : Channel),
       cacheNeedsRefresh s.cacheTimestamp now 300 = true →
       get_agent (fresh_cache_view s) agent_id = some a →
       get_channel (fresh_cache_view s) channel_id = some ch →
       (get_mappings_by_channel (fresh_cache_view s) channel_id).filter
         (fun m => m.agent_id = agent_id) = [] →
       s.mappingsContainer.any (fun m' => m'.mapping_id = new_id) = false →
       ∃ s', ui_add_mapping now s agent_id channel_id true new_id = Except.ok s'
         ∧ ({ mapping_id := new_id, agent_id := agent_id, channel_id := channel_id,
              is_primary := true, is_active := true } : Mapping) ∈ s'.mappingsContainer
         ∧ ∀ m' ∈ s'.mappingsContainer, m'.channel_id = channel_id →
             m'.is_primary = true →
             m' = { mapping_id := new_id, agent_id := agent_id,
                    channel_id := channel_id, is_primary := true,
                    is_active := true }) := by
  refine ⟨get_agent_for_phone_unique_primary, ?_,
    ui_add_mapping_demotes_in_container⟩
  intro s m h
  have hc := add_mapping_appends_without_demotion s m h
  exact ⟨by rw [hc.1], by rw [hc.1]⟩

/-- C1 witness: the fixture channel resolves to its single primary mapping's
agent; adding a second primary appends without demoting; the config-UI route
at a stale-cache instant inserts map_2 as the channel's only surviving
primary in the container. -/
theorem primary_resolution_and_demotion_only_in_ui_route_witness :
    get_agent_for_phone wConfig wChannel.phone_number =
      get_agent wConfig wMapping.agent_id
  ∧ ((add_mapping wManager wMapping2).2 = true
     ∧ (add_mapping wManager wMapping2).1.mappingsContainer =
         wManager.mappingsContainer ++ [wMapping2])
  ∧ (∃ s', ui_add_mapping 301 wManager "asst_a2" "chan_1" true "map_2" =
        Except.ok s'
      ∧ ({ mapping_id := "map_2", agent_id := "asst_a2", channel_id := "chan_1",
           is_primary := true, is_active := true } : Mapping) ∈ s'.mappingsContainer
      ∧ ∀ m' ∈ s'.mappingsContainer, m'.channel_id = "chan_1" →
          m'.is_primary = true →
          m' = { mapping_id := "map_2", agent_id := "asst_a2",
                 channel_id := "chan_1", is_primary := true,
                 is_active := true }) := by
  obtain ⟨hA, hB, hC⟩ := primary_resolution_and_demotion_only_in_ui_route
  refine ⟨?_, hB wManager wMapping2 (by decide), ?_⟩
  · exact hA wConfig wChannel wMapping (by decide) (by decide) (by decide)
      (by decide) (by decide) (by decide) (by decide)
  · exact hC 301 wManager "asst_a2" "chan_1" "map_2" wAgent2 wChannel
      (by decide) (by decide) (by decide) (by decide) (by decide)

end CallCenter
